import Mathlib

/-!
Verification of the single-HAR performance analyzer
(`scripts/analyze_single_har_performance.py`,
`scripts/break_har.py`, `scripts/break_har_for_single_analysis.py`).

The Python scripts are shallowly embedded: request-summary dicts become the
`Request` structure, Python floats become exact rationals (`ℚ`), optional
dict keys become `Option` fields, and `dict.get` defaulting is made explicit.
Each definition names the source function and lines it is translated from.
-/

set_option maxRecDepth 4000

namespace HarAnalyzer

/-! ### Shared helpers: substrings, lowercasing, Python rounding -/

/-- Decides whether `pat` occurs at the start of `s` (on character lists). -/
def charsStart : List Char → List Char → Bool
  | [], _ => true
  | _ :: _, [] => false
  | a :: ps, b :: ss => a = b && charsStart ps ss

/-- Decides whether `pat` occurs somewhere inside `s` (on character lists).
Mirrors the Python substring test `pat in s`. -/
def charsHave (pat : List Char) : List Char → Bool
  | [] => pat.isEmpty
  | b :: ss => charsStart pat (b :: ss) || charsHave pat ss

/-- Python `pat in s` substring containment on strings. -/
def strHas (s pat : String) : Bool :=
  charsHave pat.data s.data

/-- Python `s.lower()` (restricted to the ASCII lowering of `Char.toLower`,
which is all the scripts rely on), written on the character list so that it
reduces in the kernel. -/
def lowerStr (s : String) : String :=
  ⟨s.data.map Char.toLower⟩

/-- Python truthiness of an optional string: `None` and `""` are falsy. -/
def truthyStr : Option String → Bool
  | none => false
  | some s => !(s = "")

/-- Round half to even, the tie-breaking rule of the Python built-in `round`.
Returns the integer nearest to `y`, ties going to the even integer. -/
def halfEven (y : ℚ) : ℤ :=
  let f := ⌊y⌋
  if y - f < 1 / 2 then f
  else if 1 / 2 < y - f then f + 1
  else if f % 2 = 0 then f else f + 1

/-- Python `round(x, digits)`, modelled on exact rationals. -/
def pyRound (x : ℚ) (digits : ℕ) : ℚ :=
  (halfEven (x * 10 ^ digits) : ℚ) / 10 ^ digits

/-! ### The Request Record

One element of the `requests` array of `02_requests_summary.json`, as built by
`break_har_for_single_analysis.py` lines 101-114.  The `timings` sub-dict may
lack the `dns` / `ssl` / `connect` keys, hence `Option` fields; all uses in
the analyzer go through `timings.get(key, -1)` which is modelled explicitly
below.  `responseHeaders` is the ordered name/value list consulted by the
compression and caching audits. -/

structure Timings where
  dns : Option ℚ
  ssl : Option ℚ
  connect : Option ℚ
deriving DecidableEq, Repr

structure Request where
  entryNumber : Nat
  url : String
  status : Int
  size : Int
  time : ℚ
  resourceType : String
  responseHeaders : List (String × String)
  timings : Timings
deriving DecidableEq, Repr

/-- A neutral record used as the base of concrete test inputs. -/
def baseRequest : Request :=
  { entryNumber := 1
    url := "https://example.com/"
    status := 200
    size := 100
    time := 50
    resourceType := "other"
    responseHeaders := []
    timings := { dns := none, ssl := none, connect := none } }

/-! ### C1 - latency buckets

`analyze_single_har_performance.py`, `main`, lines 132-135:

  fast      = [r for r in reqs if r["time"] < 200]
  medium    = [r for r in reqs if 200 <= r["time"] < 500]
  slow      = [r for r in reqs if r["time"] >= 500]
  very_slow = [r for r in reqs if r["time"] >= 1000]

and `generate_agent_summary`, lines 851-852:

  very_slow = [r for r in reqs if r["time"] >= 1000]
  slow      = [r for r in reqs if 500 <= r["time"] < 1000]
-/

def fastRequests (reqs : List Request) : List Request :=
  reqs.filter (fun r => r.time < 200)

def mediumRequests (reqs : List Request) : List Request :=
  reqs.filter (fun r => 200 ≤ r.time ∧ r.time < 500)

/-- The slow bucket of `main` (line 134): `time >= 500`, no upper bound. -/
def slowRequestsMain (reqs : List Request) : List Request :=
  reqs.filter (fun r => 500 ≤ r.time)

def verySlowRequests (reqs : List Request) : List Request :=
  reqs.filter (fun r => 1000 ≤ r.time)

/-- The slow bucket of `generate_agent_summary` (line 852): `500 <= time < 1000`. -/
def slowRequestsAgent (reqs : List Request) : List Request :=
  reqs.filter (fun r => 500 ≤ r.time ∧ r.time < 1000)

/-- A request whose total time is 1200 ms. -/
def request1200 : Request :=
  { baseRequest with url := "https://example.com/app.js", time := 1200,
                     resourceType := "script" }

/-! ### C4 - size aggregation without clamping

`analyze_single_har_performance.py`, `main`, lines 198-199: the per-type
total is the raw sum `sum(x["size"] for x in group)`; `break_har.py`,
`extract_har_data`, line 128: `total_size += size`.  Neither clamps the raw
`size` to be non-negative. -/

def typeGroup (reqs : List Request) (typ : String) : List Request :=
  reqs.filter (fun r => r.resourceType = typ)

/-- Per-resource-type total size summed from raw sizes (main, line 199). -/
def typeTotalSize (reqs : List Request) (typ : String) : Int :=
  ((typeGroup reqs typ).map (fun r => r.size)).sum

/-- Overall total size accumulated from raw sizes
(`break_har.py`, line 128). -/
def harTotalSize (reqs : List Request) : Int :=
  (reqs.map (fun r => r.size)).sum

/-- A request whose raw HAR size is negative, as buggy captures report. -/
def requestNegSize : Request :=
  { baseRequest with url := "https://example.com/big.js", size := -1000,
                     resourceType := "script" }

/-! ### C5 - performance grade

`analyze_single_har_performance.py`, `generate_agent_summary`:
line 848 computes `page_load = round(on_load / 1000, 2)` when `onLoad` is
present (else `None`); lines 875-884 compute the grade. -/

/-- Mirrors the Python test `page_load is not None and page_load > t`. -/
def loadExceeds (page_load : Option ℚ) (t : ℚ) : Bool :=
  match page_load with
  | some v => decide (t < v)
  | none => false

/-- The grade expression of lines 875-884. -/
def performance_grade (page_load : Option ℚ) : String :=
  if loadExceeds page_load 10 then "CRITICAL"
  else if loadExceeds page_load 5 then "POOR"
  else if loadExceeds page_load 3 then "FAIR"
  else if page_load.isSome then "GOOD"
  else "UNKNOWN"

/-- Lines 844-848: `onLoad` milliseconds converted to seconds, rounded to
two decimals, absence propagated. -/
def pageLoadSeconds (on_load : Option ℚ) : Option ℚ :=
  on_load.map (fun v => pyRound (v / 1000) 2)

/-! ### Theorems for C1, C4, C5 -/

/-- C1: the four buckets of `main` do not partition the request list.  A
record with time 1200 ms is counted in both the slow bucket (printed with the
label "Slow requests (500-1000ms)") and the very-slow bucket, because the
slow filter of line 134 has no upper bound.  `generate_agent_summary`
(line 852) and the printed label show the disjoint ranges were intended. -/
theorem c1_main_slow_bucket_overlaps_very_slow :
    fastRequests [request1200] = [] ∧
    mediumRequests [request1200] = [] ∧
    slowRequestsMain [request1200] = [request1200] ∧
    verySlowRequests [request1200] = [request1200] ∧
    slowRequestsAgent [request1200] = [] := by
  decide

/-- C4: sizes are not clamped before aggregation; a single request with raw
size -1000 drives both the per-type total (main, line 199) and the overall
total (`break_har.py`, line 128) below zero. -/
theorem c4_negative_sizes_reach_totals :
    typeTotalSize [requestNegSize] "script" = -1000 ∧
    harTotalSize [requestNegSize] = -1000 ∧
    harTotalSize [requestNegSize] < 0 := by
  decide

/-- C5: `performance_grade` is total over every possible `onLoad` value: it
always returns one of the five grades, returns UNKNOWN exactly when `onLoad`
is absent, and otherwise grades the known load time in seconds by the fixed
thresholds 10, 5, 3. -/
theorem c5_performance_grade_total (on_load : Option ℚ) :
    performance_grade (pageLoadSeconds on_load) ∈
      ["CRITICAL", "POOR", "FAIR", "GOOD", "UNKNOWN"] ∧
    (performance_grade (pageLoadSeconds on_load) = "UNKNOWN" ↔ on_load = none) ∧
    (∀ v, pageLoadSeconds on_load = some v →
      performance_grade (pageLoadSeconds on_load) =
        if 10 < v then "CRITICAL"
        else if 5 < v then "POOR"
        else if 3 < v then "FAIR"
        else "GOOD") := by
  match on_load with
  | none =>
      refine ⟨by simp [performance_grade, loadExceeds, pageLoadSeconds], ?_, ?_⟩
      · simp [performance_grade, loadExceeds, pageLoadSeconds]
      · intro v hv
        simp [pageLoadSeconds] at hv
  | some t =>
      have hpl : pageLoadSeconds (some t) = some (pyRound (t / 1000) 2) := rfl
      set v := pyRound (t / 1000) 2 with hv
      constructor
      · simp only [performance_grade, loadExceeds, hpl, Option.isSome_some]
        split_ifs <;> simp_all [Option.isSome]
      constructor
      · constructor
        · intro hgrade
          revert hgrade
          simp only [performance_grade, loadExceeds, hpl]
          split_ifs <;> simp_all [Option.isSome]
        · intro h
          exact absurd h (by simp)
      · intro w hw
        have hwv : v = w := by
          rw [hpl] at hw
          exact Option.some.inj hw
        subst hwv
        simp only [performance_grade, loadExceeds, hpl, Option.isSome_some,
          if_true, decide_eq_true_eq]

/-- Witness for C5 at `onLoad = 6000` ms: the grade is POOR. -/
theorem c5_performance_grade_total_witness :
    performance_grade (pageLoadSeconds (some 6000)) = "POOR" := by
  have h := (c5_performance_grade_total (some 6000)).2.2 6
    (by norm_num [pageLoadSeconds, pyRound, halfEven])
  rw [h]
  norm_num

/-! ### C2 - resource classification

`break_har.py`, `_determine_resource_type`, lines 158-197.  The Python
truthiness test `if har_resource_type and har_resource_type != 'other'`
returns the HAR hint verbatim; the MIME if-chain (guarded by `if mime_type:`)
falls through to the URL-extension checks when nothing matches. -/

/-- The seven canonical resource type values named by the spec. -/
def resourceTypeValues : List String :=
  ["script", "stylesheet", "image", "font", "document", "media", "other"]

/-- Lines 166-180: classification by MIME type substrings. -/
def typeFromMime (mime : String) : Option String :=
  if strHas mime "javascript" || strHas mime "application/json" then some "script"
  else if strHas mime "text/css" then some "stylesheet"
  else if strHas mime "image/" then some "image"
  else if strHas mime "font/" || strHas mime "application/font" then some "font"
  else if strHas mime "text/html" then some "document"
  else if strHas mime "video/" then some "media"
  else if strHas mime "audio/" then some "media"
  else none

def scriptExts : List String := [".js", ".jsx", ".ts", ".tsx"]
def styleExts : List String := [".css", ".scss", ".sass"]
def imageExts : List String := [".jpg", ".jpeg", ".png", ".gif", ".svg", ".webp", ".ico"]
def fontExts : List String := [".woff", ".woff2", ".ttf", ".eot", ".otf"]
def documentExts : List String := [".html", ".htm"]
def mediaExts : List String := [".mp4", ".avi", ".mov", ".wmv", ".mp3", ".wav"]

/-- Lines 183-195: classification by extension substrings of the lowercased
URL. -/
def typeFromUrl (url : String) : Option String :=
  if scriptExts.any (fun e => strHas (lowerStr url) e) then some "script"
  else if styleExts.any (fun e => strHas (lowerStr url) e) then some "stylesheet"
  else if imageExts.any (fun e => strHas (lowerStr url) e) then some "image"
  else if fontExts.any (fun e => strHas (lowerStr url) e) then some "font"
  else if documentExts.any (fun e => strHas (lowerStr url) e) then some "document"
  else if mediaExts.any (fun e => strHas (lowerStr url) e) then some "media"
  else none

/-- Lines 165-197: the MIME chain (entered only when `mime_type` is truthy),
then the URL chain, then the default "other". -/
def typeFromContent (url mime : String) : String :=
  match (if mime ≠ "" then typeFromMime mime else none) with
  | some t => t
  | none => (typeFromUrl url).getD "other"

/-- `_determine_resource_type(url, mime_type, har_resource_type)`,
lines 158-197. -/
def determine_resource_type (url mime : String) (harHint : Option String) : String :=
  match harHint with
  | some h => if h ≠ "" ∧ h ≠ "other" then h else typeFromContent url mime
  | none => typeFromContent url mime

theorem typeFromMime_mem (mime t : String) (h : typeFromMime mime = some t) :
    t ∈ resourceTypeValues := by
  unfold typeFromMime at h
  split_ifs at h <;> simp_all [resourceTypeValues]

theorem typeFromUrl_mem (url t : String) (h : typeFromUrl url = some t) :
    t ∈ resourceTypeValues := by
  unfold typeFromUrl at h
  split_ifs at h <;> simp_all [resourceTypeValues]

theorem typeFromContent_mem (url mime : String) :
    typeFromContent url mime ∈ resourceTypeValues := by
  unfold typeFromContent
  cases hm : (if mime ≠ "" then typeFromMime mime else none) with
  | some t =>
      have : typeFromMime mime = some t := by
        by_cases h : mime = "" <;> simp_all
      exact typeFromMime_mem mime t this
  | none =>
      cases hu : typeFromUrl url with
      | some t => simpa using typeFromUrl_mem url t hu
      | none => simp [resourceTypeValues]

/-- C2 counterexample: the HAR hint "xhr" (a value Chrome emits routinely) is
returned verbatim by the classifier, and it is none of the seven canonical
values, refuting the claim as stated. -/
theorem c2_counterexample_hint_escapes :
    determine_resource_type "" "" (some "xhr") = "xhr" ∧
    "xhr" ∉ resourceTypeValues := by
  decide

/-- C2 (amended): when the HAR hint is absent, empty, or "other", the
classifier returns exactly one of the seven canonical values and never
fails, defaulting to "other" when neither the MIME chain nor the URL chain
matches; when the hint is present, nonempty and different from "other" it is
returned verbatim. -/
theorem c2_amended_classification (url mime : String) (harHint : Option String) :
    (¬ (∃ h, harHint = some h ∧ h ≠ "" ∧ h ≠ "other") →
      determine_resource_type url mime harHint ∈ resourceTypeValues) ∧
    (∀ h, harHint = some h → h ≠ "" → h ≠ "other" →
      determine_resource_type url mime harHint = h) ∧
    (¬ (∃ h, harHint = some h ∧ h ≠ "" ∧ h ≠ "other") →
      (mime = "" ∨ typeFromMime mime = none) → typeFromUrl url = none →
      determine_resource_type url mime harHint = "other") := by
  have hcontent : ∀ hm : (mime = "" ∨ typeFromMime mime = none),
      typeFromUrl url = none → typeFromContent url mime = "other" := by
    intro hm hu
    unfold typeFromContent
    rcases hm with hm | hm
    · simp [hm, hu]
    · by_cases h : mime = "" <;> simp [h, hm, hu]
  refine ⟨?_, ?_, ?_⟩
  · intro hno
    cases harHint with
    | none => exact typeFromContent_mem url mime
    | some h =>
        simp only [determine_resource_type]
        split_ifs with ht
        · exact absurd ⟨h, rfl, ht.1, ht.2⟩ hno
        · exact typeFromContent_mem url mime
  · intro h hh h1 h2
    subst hh
    unfold determine_resource_type
    simp [h1, h2]
  · intro hno hm hu
    cases harHint with
    | none => exact hcontent hm hu
    | some h =>
        simp only [determine_resource_type]
        split_ifs with ht
        · exact absurd ⟨h, rfl, ht.1, ht.2⟩ hno
        · exact hcontent hm hu

/-- Witness for C2 at concrete inputs: a URL-classified script, a verbatim
hint, and the "other" default. -/
theorem c2_amended_classification_witness :
    determine_resource_type "https://example.com/a.js" "" none ∈ resourceTypeValues ∧
    determine_resource_type "" "" (some "xhr2") = "xhr2" ∧
    determine_resource_type "" "" none = "other" := by
  refine ⟨?_, ?_, ?_⟩
  · exact (c2_amended_classification "https://example.com/a.js" "" none).1 (by simp)
  · exact (c2_amended_classification "" "" (some "xhr2")).2.1 "xhr2" rfl
      (by decide) (by decide)
  · exact (c2_amended_classification "" "" none).2.2 (by simp) (Or.inl rfl) (by decide)

/-! ### C10 - third-party domain categorization

`analyze_single_har_performance.py`, `analyze_enhanced_third_party`,
lines 1213-1251.  The category dict is a literal with a fixed insertion
order, and `categorize_domain` returns on the first matching category, so the
lookup is embedded as the unrolled if-chain in that order. -/

def analyticsKeywords : List String :=
  ["google-analytics", "googletagmanager", "analytics", "gtm", "ga",
   "mixpanel", "segment"]
def advertisingKeywords : List String :=
  ["doubleclick", "adsystem", "googlesyndication", "facebook.com", "adsrvr",
   "amazon-adsystem"]
def socialKeywords : List String :=
  ["facebook", "twitter", "linkedin", "instagram", "pinterest", "youtube"]
def cdnKeywords : List String :=
  ["cloudflare", "amazonaws", "cloudfront", "fastly", "jsdelivr", "cdnjs"]
def performanceKeywords : List String :=
  ["signalfx", "newrelic", "datadog", "pingdom"]
def securityKeywords : List String :=
  ["cookielaw", "onetrust", "cloudflare"]
def fontsKeywords : List String :=
  ["fonts.googleapis", "fonts.gstatic", "typekit"]
def mapsKeywords : List String :=
  ["maps.googleapis", "mapbox"]

/-- The category table in its Python insertion order. -/
def thirdPartyCategories : List (String × List String) :=
  [("analytics", analyticsKeywords), ("advertising", advertisingKeywords),
   ("social", socialKeywords), ("cdn", cdnKeywords),
   ("performance", performanceKeywords), ("security", securityKeywords),
   ("fonts", fontsKeywords), ("maps", mapsKeywords)]

/-- Python `any(keyword in domain_lower for keyword in keywords)`. -/
def keywordMatches (domainLower : String) (keywords : List String) : Bool :=
  keywords.any (fun k => strHas domainLower k)

/-- `categorize_domain`, lines 1246-1251: first matching category in
insertion order, else "other". -/
def categorize_domain (domain : String) : String :=
  if keywordMatches (lowerStr domain) analyticsKeywords then "analytics"
  else if keywordMatches (lowerStr domain) advertisingKeywords then "advertising"
  else if keywordMatches (lowerStr domain) socialKeywords then "social"
  else if keywordMatches (lowerStr domain) cdnKeywords then "cdn"
  else if keywordMatches (lowerStr domain) performanceKeywords then "performance"
  else if keywordMatches (lowerStr domain) securityKeywords then "security"
  else if keywordMatches (lowerStr domain) fontsKeywords then "fonts"
  else if keywordMatches (lowerStr domain) mapsKeywords then "maps"
  else "other"

/-- C10 counterexample: `ga.cloudflare.com` contains the keyword
"cloudflare", yet is categorized "analytics" (its "ga" substring matches the
earlier analytics list), refuting "any domain containing cloudflare is
categorized cdn". -/
theorem c10_counterexample_ga_cloudflare :
    categorize_domain "ga.cloudflare.com" = "analytics" ∧
    "analytics" ≠ "cdn" := by
  decide

/-- C10 (amended): categorization is first-match over the fixed order.  A
domain containing "cloudflare" is never categorized "security" (the cdn list
is consulted first), and is categorized "cdn" whenever no earlier category
(analytics, advertising, social) matches; a domain matching no keyword list
is categorized "other". -/
theorem c10_amended_first_match (domain : String) :
    (strHas (lowerStr domain) "cloudflare" = true →
      categorize_domain domain ≠ "security") ∧
    (strHas (lowerStr domain) "cloudflare" = true →
      keywordMatches (lowerStr domain) analyticsKeywords = false →
      keywordMatches (lowerStr domain) advertisingKeywords = false →
      keywordMatches (lowerStr domain) socialKeywords = false →
      categorize_domain domain = "cdn") ∧
    ((∀ p ∈ thirdPartyCategories, keywordMatches (lowerStr domain) p.2 = false) →
      categorize_domain domain = "other") := by
  have hcdn : strHas (lowerStr domain) "cloudflare" = true →
      keywordMatches (lowerStr domain) cdnKeywords = true := by
    intro h
    simp only [keywordMatches, cdnKeywords, List.any_cons, Bool.or_eq_true]
    exact Or.inl h
  refine ⟨?_, ?_, ?_⟩
  · intro hcf
    have hc := hcdn hcf
    unfold categorize_domain
    split_ifs <;> simp_all
  · intro hcf h1 h2 h3
    have hc := hcdn hcf
    unfold categorize_domain
    split_ifs <;> simp_all
  · intro hall
    have h1 := hall ("analytics", analyticsKeywords) (by simp [thirdPartyCategories])
    have h2 := hall ("advertising", advertisingKeywords) (by simp [thirdPartyCategories])
    have h3 := hall ("social", socialKeywords) (by simp [thirdPartyCategories])
    have h4 := hall ("cdn", cdnKeywords) (by simp [thirdPartyCategories])
    have h5 := hall ("performance", performanceKeywords) (by simp [thirdPartyCategories])
    have h6 := hall ("security", securityKeywords) (by simp [thirdPartyCategories])
    have h7 := hall ("fonts", fontsKeywords) (by simp [thirdPartyCategories])
    have h8 := hall ("maps", mapsKeywords) (by simp [thirdPartyCategories])
    unfold categorize_domain
    split_ifs <;> simp_all

/-- Witness for C10: a pure cdn domain, and a domain matching nothing. -/
theorem c10_amended_first_match_witness :
    categorize_domain "cdn.cloudflare.net" = "cdn" ∧
    categorize_domain "example.org" = "other" := by
  constructor
  · exact (c10_amended_first_match "cdn.cloudflare.net").2.1 (by decide)
      (by decide) (by decide) (by decide)
  · exact (c10_amended_first_match "example.org").2.2 (by decide)

/-! ### C6 - DNS/SSL averages

`analyze_single_har_performance.py`, `analyze_dns_connection_timing`:
line 1087 reads `timings.get("dns", -1)`, lines 1119-1129 collect the
samples with value >= 0, and lines 1191-1200 report
`round(sum/len, 1)` over the samples, or the string "N/A" when none exist. -/

/-- Python `timings.get("dns", -1)` (line 1087): absent key defaults to the
sentinel -1. -/
def dnsRaw (r : Request) : ℚ := r.timings.dns.getD (-1)

/-- Python `timings.get("ssl", -1)` (line 1088). -/
def sslRaw (r : Request) : ℚ := r.timings.ssl.getD (-1)

/-- Lines 1119-1123: the requests contributing a DNS sample
(`dns_time >= 0`). -/
def dnsSampleRequests (reqs : List Request) : List Request :=
  reqs.filter (fun r => 0 ≤ dnsRaw r)

/-- Lines 1125-1129: the requests contributing an SSL sample. -/
def sslSampleRequests (reqs : List Request) : List Request :=
  reqs.filter (fun r => 0 ≤ sslRaw r)

/-- The Python value is a union of the string "N/A" and a number; the two
shapes are kept apart as an inductive. -/
inductive AvgTime where
  | na
  | val (q : ℚ)
deriving DecidableEq, Repr

/-- Lines 1191-1195: the reported average DNS time. -/
def avg_dns_time (reqs : List Request) : AvgTime :=
  match dnsSampleRequests reqs with
  | [] => .na
  | l => .val (pyRound ((l.map dnsRaw).sum / (l.length : ℚ)) 1)

/-- Lines 1196-1200: the reported average SSL time. -/
def avg_ssl_time (reqs : List Request) : AvgTime :=
  match sslSampleRequests reqs with
  | [] => .na
  | l => .val (pyRound ((l.map sslRaw).sum / (l.length : ℚ)) 1)

/-- C6: when no request has a DNS (resp. SSL) timing >= 0, the reported
average is the explicit "N/A" marker and never the number 0; a timing of 0
is a valid sample included in the average, the sentinel -1 is excluded; and
whenever at least one valid sample exists the report is numeric. -/
theorem c6_sentinel_propagation (reqs : List Request) :
    ((∀ r ∈ reqs, dnsRaw r < 0) → avg_dns_time reqs = AvgTime.na) ∧
    ((∀ r ∈ reqs, sslRaw r < 0) → avg_ssl_time reqs = AvgTime.na) ∧
    (∀ r ∈ reqs, dnsRaw r = 0 → r ∈ dnsSampleRequests reqs) ∧
    (∀ r ∈ reqs, dnsRaw r = -1 → r ∉ dnsSampleRequests reqs) ∧
    ((∃ r ∈ reqs, 0 ≤ dnsRaw r) → ∃ q, avg_dns_time reqs = AvgTime.val q) := by
  refine ⟨?_, ?_, ?_, ?_, ?_⟩
  · intro hall
    have hnil : dnsSampleRequests reqs = [] := by
      rw [dnsSampleRequests, List.filter_eq_nil]
      intro r hr
      simp only [decide_eq_true_eq, not_le]
      exact hall r hr
    rw [avg_dns_time, hnil]
  · intro hall
    have hnil : sslSampleRequests reqs = [] := by
      rw [sslSampleRequests, List.filter_eq_nil]
      intro r hr
      simp only [decide_eq_true_eq, not_le]
      exact hall r hr
    rw [avg_ssl_time, hnil]
  · intro r hr h0
    rw [dnsSampleRequests, List.mem_filter]
    exact ⟨hr, by simp [h0]⟩
  · intro r _ hneg
    rw [dnsSampleRequests, List.mem_filter]
    rintro ⟨-, habs⟩
    rw [hneg] at habs
    norm_num at habs
  · rintro ⟨r, hr, hge⟩
    have hmem : r ∈ dnsSampleRequests reqs := by
      rw [dnsSampleRequests, List.mem_filter]
      exact ⟨hr, by simpa using hge⟩
    rw [avg_dns_time]
    cases h : dnsSampleRequests reqs with
    | nil => rw [h] at hmem; exact absurd hmem (List.not_mem_nil r)
    | cons a l => exact ⟨_, rfl⟩

/-- A request whose timings dict lacks the dns and ssl keys. -/
def requestNoTimings : Request := baseRequest

/-- A request carrying the -1 sentinel for dns and ssl. -/
def requestSentinel : Request :=
  { baseRequest with
      timings := { dns := some (-1), ssl := some (-1), connect := none } }

/-- A request with a measured dns time of 0 ms. -/
def requestDnsZero : Request :=
  { baseRequest with
      timings := { dns := some 0, ssl := none, connect := none } }

/-- Witness for C6: with only absent and sentinel timings both averages are
"N/A"; a 0 ms sample is kept, a -1 sentinel is dropped, and one valid sample
makes the average numeric. -/
theorem c6_sentinel_propagation_witness :
    avg_dns_time [requestNoTimings, requestSentinel] = AvgTime.na ∧
    avg_ssl_time [requestNoTimings, requestSentinel] = AvgTime.na ∧
    requestDnsZero ∈ dnsSampleRequests [requestDnsZero] ∧
    requestSentinel ∉ dnsSampleRequests [requestSentinel] ∧
    (∃ q, avg_dns_time [requestDnsZero] = AvgTime.val q) := by
  refine ⟨?_, ?_, ?_, ?_, ?_⟩
  · exact (c6_sentinel_propagation [requestNoTimings, requestSentinel]).1 (by decide)
  · exact (c6_sentinel_propagation [requestNoTimings, requestSentinel]).2.1 (by decide)
  · exact (c6_sentinel_propagation [requestDnsZero]).2.2.1 requestDnsZero
      (by decide) (by decide)
  · exact (c6_sentinel_propagation [requestSentinel]).2.2.2.1 requestSentinel
      (by decide) (by decide)
  · exact (c6_sentinel_propagation [requestDnsZero]).2.2.2.2
      ⟨requestDnsZero, by decide, by decide⟩

/-! ### C8 - chunking

`break_har_for_single_analysis.py`, `main`, lines 122-137:

  chunk_size = 10
  for i in range(0, len(entries), chunk_size):
      chunk = entries[i:i+chunk_size]

The loop start indices are `10*k` for `k` below `ceil(len/10)`, so the chunk
list is embedded as a map over `List.range`. -/

def chunkEntries {α : Type} (entries : List α) : List (List α) :=
  (List.range ((entries.length + 9) / 10)).map
    (fun k => (entries.drop (10 * k)).take 10)

theorem chunkEntries_nil {α : Type} : chunkEntries ([] : List α) = [] := by
  simp [chunkEntries]

theorem chunkEntries_eq_nil_iff {α : Type} (l : List α) :
    chunkEntries l = [] ↔ l = [] := by
  constructor
  · intro h
    rcases l with - | ⟨a, t⟩
    · rfl
    · exfalso
      have hlen : ((a :: t).length + 9) / 10 ≠ 0 := by
        simp only [List.length_cons]
        omega
      rw [chunkEntries] at h
      have := List.map_eq_nil.mp h
      rw [List.range_eq_nil] at this
      exact hlen this
  · rintro rfl
    exact chunkEntries_nil

theorem chunkEntries_cons {α : Type} (l : List α) (h : l ≠ []) :
    chunkEntries l = l.take 10 :: chunkEntries (l.drop 10) := by
  have h1 : 1 ≤ l.length := List.length_pos.mpr h
  have hcount : (l.length + 9) / 10 = ((l.drop 10).length + 9) / 10 + 1 := by
    rw [List.length_drop]
    omega
  rw [chunkEntries, hcount, List.range_succ_eq_map]
  rw [chunkEntries]
  simp only [List.map_cons, Nat.mul_zero, List.drop_zero, List.map_map]
  congr 1
  apply List.map_congr_left
  intro k _
  simp only [Function.comp_apply]
  rw [List.drop_drop]
  congr 2
  omega

/-- C8: the chunk files partition `log.entries` in capture order: joining
the chunks in ascending chunk number restores the entries exactly, every
chunk but the last holds exactly 10 entries, and every chunk (in particular
the final one) holds between 1 and 10 entries. -/
theorem c8_chunk_partition {α : Type} (entries : List α) :
    (chunkEntries entries).join = entries ∧
    (∀ c ∈ (chunkEntries entries).dropLast, c.length = 10) ∧
    (∀ c ∈ chunkEntries entries, 1 ≤ c.length ∧ c.length ≤ 10) := by
  have H : ∀ (n : ℕ) (l : List α), l.length ≤ n →
      (chunkEntries l).join = l ∧
      (∀ c ∈ (chunkEntries l).dropLast, c.length = 10) ∧
      (∀ c ∈ chunkEntries l, 1 ≤ c.length ∧ c.length ≤ 10) := by
    intro n
    induction n with
    | zero =>
        intro l hl
        have : l = [] := List.eq_nil_of_length_eq_zero (Nat.le_zero.mp hl)
        subst this
        refine ⟨by simp [chunkEntries_nil], ?_, ?_⟩ <;> intro c hc <;>
          simp [chunkEntries_nil] at hc
    | succ n ih =>
        intro l hl
        by_cases hn : l = []
        · subst hn
          refine ⟨by simp [chunkEntries_nil], ?_, ?_⟩ <;> intro c hc <;>
            simp [chunkEntries_nil] at hc
        · have h1 : 1 ≤ l.length := List.length_pos.mpr hn
          have hdl : (l.drop 10).length ≤ n := by
            rw [List.length_drop]
            omega
          obtain ⟨j1, j2, j3⟩ := ih (l.drop 10) hdl
          rw [chunkEntries_cons l hn]
          refine ⟨?_, ?_, ?_⟩
          · simp only [List.join_cons, j1, List.take_append_drop]
          · intro c hc
            cases hrest : chunkEntries (l.drop 10) with
            | nil =>
                rw [hrest] at hc
                simp at hc
            | cons a t =>
                rw [hrest] at hc
                rw [List.dropLast_cons₂] at hc
                rcases List.mem_cons.mp hc with hc | hc
                · subst hc
                  have hdrop : l.drop 10 ≠ [] := by
                    intro hd
                    rw [hd, chunkEntries_nil] at hrest
                    exact (List.cons_ne_nil a t) hrest.symm
                  have : 10 < l.length := by
                    by_contra hle
                    push_neg at hle
                    exact hdrop (List.drop_eq_nil_of_le hle)
                  rw [List.length_take]
                  omega
                · rw [← hrest] at hc
                  exact j2 c hc
          · intro c hc
            rcases List.mem_cons.mp hc with hc | hc
            · subst hc
              rw [List.length_take]
              constructor
              · omega
              · omega
            · exact j3 c hc
  exact H entries.length entries le_rfl

/-- Witness for C8 on the 12-element list `List.range 12`: the join is the
original list, the first chunk has exactly 10 elements, and the final chunk
`[10, 11]` has between 1 and 10 elements. -/
theorem c8_chunk_partition_witness :
    (chunkEntries (List.range 12)).join = List.range 12 ∧
    (List.range 10).length = 10 ∧
    (1 ≤ ([10, 11] : List ℕ).length ∧ ([10, 11] : List ℕ).length ≤ 10) := by
  refine ⟨(c8_chunk_partition (List.range 12)).1, ?_, ?_⟩
  · exact (c8_chunk_partition (List.range 12)).2.1 (List.range 10) (by decide)
  · exact (c8_chunk_partition (List.range 12)).2.2 [10, 11] (by decide)

/-! ### C7 - compression and caching audits

`analyze_single_har_performance.py`, `analyze_compression` (lines 929-984)
and `analyze_caching` (lines 987-1070).  Both loops append flagged resources
in request order; they are embedded as folds over the request list. -/

/-- `get_header_value` (lines 932-936 and 990-994): first header whose name
matches case-insensitively, else `None`. -/
def get_header_value (headers : List (String × String)) (name : String) :
    Option String :=
  (headers.find? (fun h => lowerStr h.1 = lowerStr name)).map (fun h => h.2)

/-- The text-like MIME allowlist of lines 952-961. -/
def compressibleTypes : List String :=
  ["text/", "application/javascript", "application/json", "application/xml",
   "application/css", "image/svg"]

/-- Line 943-946: `get_header_value(...) or ""`. -/
def contentTypeOf (r : Request) : String :=
  (get_header_value r.responseHeaders "content-type").getD ""

def contentEncodingOf (r : Request) : Option String :=
  get_header_value r.responseHeaders "content-encoding"

/-- Lines 952-961: `any(t in content_type.lower() for t in [...])`. -/
def isTextResource (r : Request) : Bool :=
  compressibleTypes.any (fun t => strHas (lowerStr (contentTypeOf r)) t)

/-- Line 964: text-based and larger than 1 KB. -/
def compressibleGuard (r : Request) : Bool :=
  isTextResource r && decide (1024 < r.size)

/-- Python `int(size * 0.7)` (lines 972-974): the 70% savings estimate,
truncated; the guard `size > 1024` makes the argument positive, where
truncation and floor agree. -/
def savingsOf (size : Int) : Int :=
  ⌊(7 * size : ℚ) / 10⌋

structure UncompressedRes where
  url : String
  size : Int
  contentType : String
  potential_savings : Int
deriving DecidableEq, Repr

/-- The dict appended at lines 967-976. -/
def mkUncompressed (r : Request) : UncompressedRes :=
  { url := r.url, size := r.size, contentType := contentTypeOf r,
    potential_savings := savingsOf r.size }

/-- Whether the loop body flags `r` as uncompressed: compressible and no
truthy content-encoding header (line 966). -/
def uncompressedEntry (r : Request) : Option UncompressedRes :=
  if compressibleGuard r && !truthyStr (contentEncodingOf r) then
    some (mkUncompressed r)
  else none

structure CompState where
  uncompressed : List UncompressedRes
  savings : Int
  compressible : Int
deriving Repr

/-- One iteration of the loop at lines 942-977. -/
def compStep (st : CompState) (r : Request) : CompState :=
  if compressibleGuard r then
    if !truthyStr (contentEncodingOf r) then
      { uncompressed := st.uncompressed ++ [mkUncompressed r],
        savings := st.savings + savingsOf r.size,
        compressible := st.compressible + r.size }
    else
      { st with compressible := st.compressible + r.size }
  else st

structure CompressionResult where
  uncompressed_resources : List UncompressedRes
  total_potential_savings_kb : ℚ
  total_compressible_kb : ℚ
  compression_opportunity_count : Nat
deriving Repr

/-- `analyze_compression`, lines 929-984.  The returned
`uncompressed_resources` list is the accumulated list itself: no cap and no
re-ordering. -/
def analyze_compression (reqs : List Request) : CompressionResult :=
  let st := reqs.foldl compStep ⟨[], 0, 0⟩
  { uncompressed_resources := st.uncompressed,
    total_potential_savings_kb := pyRound ((st.savings : ℚ) / 1024) 1,
    total_compressible_kb := pyRound ((st.compressible : ℚ) / 1024) 1,
    compression_opportunity_count := st.uncompressed.length }

/-- Digit run to a natural number, for the `max-age=(\d+)` capture. -/
def digitsToNat (ds : List Char) : Nat :=
  ds.foldl (fun n c => 10 * n + (c.toNat - 48)) 0

/-- The regex search `max-age=(\d+)` of line 1028: first occurrence of
`max-age=` followed by at least one digit; the capture is the maximal digit
run. -/
def findMaxAge : List Char → Option Nat
  | [] => none
  | c :: rest =>
      if charsStart "max-age=".data (c :: rest) then
        let ds := ((c :: rest).drop 8).takeWhile Char.isDigit
        if ds.isEmpty then findMaxAge rest else some (digitsToNat ds)
      else findMaxAge rest

def extractMaxAge (s : String) : Option Nat :=
  findMaxAge s.data

def cacheControlOf (r : Request) : Option String :=
  get_header_value r.responseHeaders "cache-control"

def expiresOf (r : Request) : Option String :=
  get_header_value r.responseHeaders "expires"

/-- Line 1011: `not cache_control and not expires`. -/
def noCachePred (r : Request) : Bool :=
  !truthyStr (cacheControlOf r) && !truthyStr (expiresOf r)

structure NoCacheRes where
  url : String
  size : Int
  resourceType : String
deriving DecidableEq, Repr

/-- The dict appended at lines 1012-1018. -/
def mkNoCache (r : Request) : NoCacheRes :=
  { url := r.url, size := r.size, resourceType := r.resourceType }

structure ShortCacheRes where
  url : String
  max_age_hours : ℚ
  resourceType : String
deriving DecidableEq, Repr

/-- Lines 1021-1039: inside the else-branch, a truthy cache-control without
no-cache/no-store whose max-age capture is below 3600 s is flagged short. -/
def shortCacheEntry (r : Request) : Option ShortCacheRes :=
  match cacheControlOf r with
  | none => none
  | some c =>
      if c = "" then none
      else if strHas c "no-cache" || strHas c "no-store" then none
      else if strHas c "max-age" then
        match extractMaxAge c with
        | some n =>
            if n < 3600 then
              some { url := r.url, max_age_hours := pyRound ((n : ℚ) / 3600) 2,
                     resourceType := r.resourceType }
            else none
        | none => none
      else none

/-- Lines 1040-1042: max-age of at least 3600 s counts as well cached. -/
def goodCacheEntry (r : Request) : Option String :=
  match cacheControlOf r with
  | none => none
  | some c =>
      if c = "" then none
      else if strHas c "no-cache" || strHas c "no-store" then none
      else if strHas c "max-age" then
        match extractMaxAge c with
        | some n => if n < 3600 then none else some r.url
        | none => none
      else none

structure CacheState where
  no_cache : List NoCacheRes
  short_cache : List ShortCacheRes
  good_cache : List String
deriving Repr

/-- One iteration of the loop at lines 1001-1053 (the `cache_analysis`
side dict of lines 1049-1053 is not part of the returned value and is not
modelled). -/
def cacheStep (st : CacheState) (r : Request) : CacheState :=
  if noCachePred r then
    { st with no_cache := st.no_cache ++ [mkNoCache r] }
  else
    match shortCacheEntry r with
    | some sc => { st with short_cache := st.short_cache ++ [sc] }
    | none =>
        match goodCacheEntry r with
        | some u => { st with good_cache := st.good_cache ++ [u] }
        | none => st

structure CachingResult where
  no_cache_resources : List NoCacheRes
  short_cache_resources : List ShortCacheRes
  well_cached_count : Nat
  cache_optimization_count : Nat
  total_potential_savings_kb : ℚ
deriving Repr

/-- `analyze_caching`, lines 987-1070.  The two flagged lists keep request
order and are truncated to the first 10 entries (lines 1065-1066); the
short-cache dicts carry no `size` key, so `res.get("size", 0)` at line 1057
contributes 0 for each of them. -/
def analyze_caching (reqs : List Request) : CachingResult :=
  let st := reqs.foldl cacheStep ⟨[], [], []⟩
  { no_cache_resources := st.no_cache.take 10,
    short_cache_resources := st.short_cache.take 10,
    well_cached_count := st.good_cache.length,
    cache_optimization_count := st.no_cache.length + st.short_cache.length,
    total_potential_savings_kb :=
      pyRound ((((st.no_cache.map (fun x => x.size)).sum
        + (st.short_cache.map (fun _ => (0 : Int))).sum : Int) : ℚ) / 1024) 1 }

theorem comp_foldl_uncompressed (reqs : List Request) (acc : List UncompressedRes)
    (sv cp : Int) :
    (reqs.foldl compStep ⟨acc, sv, cp⟩).uncompressed =
      acc ++ reqs.filterMap uncompressedEntry := by
  induction reqs generalizing acc sv cp with
  | nil => simp
  | cons r rest ih =>
      simp only [List.foldl_cons, List.filterMap_cons, compStep, uncompressedEntry]
      by_cases hg : compressibleGuard r = true
      · by_cases he : truthyStr (contentEncodingOf r) = true
        · simp [hg, he, ih]
        · have he' : (!truthyStr (contentEncodingOf r)) = true := by
            simp [Bool.not_eq_true] at he ⊢
            exact he
          simp [hg, he', ih]
      · have hg' : compressibleGuard r = false := by
          simp [Bool.not_eq_true] at hg
          exact hg
        simp [hg', ih]

theorem noCache_shortCacheEntry_none (r : Request) (h : noCachePred r = true) :
    shortCacheEntry r = none := by
  rw [noCachePred, Bool.and_eq_true] at h
  rw [shortCacheEntry]
  cases hc : cacheControlOf r with
  | none => rfl
  | some c =>
      have : truthyStr (cacheControlOf r) = false := by
        rcases h with ⟨h1, -⟩
        simpa using h1
      rw [hc] at this
      have hce : c = "" := by
        by_contra hne
        simp [truthyStr, hne] at this
      simp [hce]

theorem cache_foldl_lists (reqs : List Request) (accN : List NoCacheRes)
    (accS : List ShortCacheRes) (accG : List String) :
    (reqs.foldl cacheStep ⟨accN, accS, accG⟩).no_cache =
      accN ++ reqs.filterMap
        (fun r => if noCachePred r then some (mkNoCache r) else none) ∧
    (reqs.foldl cacheStep ⟨accN, accS, accG⟩).short_cache =
      accS ++ reqs.filterMap shortCacheEntry := by
  induction reqs generalizing accN accS accG with
  | nil => simp
  | cons r rest ih =>
      simp only [List.foldl_cons, List.filterMap_cons, cacheStep]
      by_cases hn : noCachePred r = true
      · rw [noCache_shortCacheEntry_none r hn]
        simp only [hn, if_true]
        rcases ih (accN ++ [mkNoCache r]) accS accG with ⟨i1, i2⟩
        exact ⟨by simp [i1], by simp [i2]⟩
      · have hn' : noCachePred r = false := by
          simp [Bool.not_eq_true] at hn
          exact hn
        simp only [hn', Bool.false_eq_true, if_false]
        cases hsc : shortCacheEntry r with
        | some sc =>
            rcases ih accN (accS ++ [sc]) accG with ⟨i1, i2⟩
            exact ⟨by simp [i1], by simp [i2]⟩
        | none =>
            cases hgc : goodCacheEntry r with
            | some u =>
                rcases ih accN accS (accG ++ [u]) with ⟨i1, i2⟩
                exact ⟨by simp [i1], by simp [i2]⟩
            | none =>
                rcases ih accN accS accG with ⟨i1, i2⟩
                exact ⟨by simp [i1], by simp [i2]⟩

/-- C7 counterexample: with eleven uncompressed text resources, the
compression audit returns all eleven flagged entries, refuting the claimed
cap of 10. -/
def uncompressedReq (i : Nat) : Request :=
  { baseRequest with
      entryNumber := i,
      url := "https://example.com/page",
      size := 2000,
      responseHeaders := [("Content-Type", "text/html")] }

def elevenUncompressed : List Request :=
  (List.range 11).map uncompressedReq

theorem c7_counterexample_uncapped_list :
    (analyze_compression elevenUncompressed).uncompressed_resources.length = 11 := by
  decide

/-- C7 (amended): the caching audit returns its two flagged lists in request
order capped at the first 10 entries (hence never more than 10), while the
compression audit returns all flagged resources in request order with no cap
and no re-ordering; the aggregate count equals the full flagged-list
length. -/
theorem c7_amended_flagged_lists (reqs : List Request) :
    (analyze_compression reqs).uncompressed_resources =
      reqs.filterMap uncompressedEntry ∧
    (analyze_compression reqs).compression_opportunity_count =
      (reqs.filterMap uncompressedEntry).length ∧
    (analyze_caching reqs).no_cache_resources =
      (reqs.filterMap
        (fun r => if noCachePred r then some (mkNoCache r) else none)).take 10 ∧
    (analyze_caching reqs).short_cache_resources =
      (reqs.filterMap shortCacheEntry).take 10 ∧
    (analyze_caching reqs).no_cache_resources.length ≤ 10 ∧
    (analyze_caching reqs).short_cache_resources.length ≤ 10 := by
  have hcomp := comp_foldl_uncompressed reqs [] 0 0
  have hcache := cache_foldl_lists reqs [] [] []
  rcases hcache with ⟨h1, h2⟩
  refine ⟨?_, ?_, ?_, ?_, ?_, ?_⟩
  · simpa [analyze_compression] using hcomp
  · simp [analyze_compression, hcomp]
  · simp [analyze_caching, h1]
  · simp [analyze_caching, h2]
  · simp only [analyze_caching, List.length_take]
    omega
  · simp only [analyze_caching, List.length_take]
    omega

/-! ### C9 - generate_agent_summary never raises

`analyze_single_har_performance.py`, `generate_agent_summary`,
lines 834-926: the whole body sits in one `try`, and the `except` returns
`{"error": f"Failed to generate summary: {str(e)}"}` (line 926); `main`
(lines 497-502) then dumps the returned object to `agent_summary.json`
unconditionally.  The two key accesses that can raise on the inputs named by
the claim are `summary["requests"]` (line 837, `KeyError` whose `str` is
`'requests'`) and `header["log"]["pages"][0]` (line 839, `KeyError 'log'` or
`IndexError` whose `str` is `list index out of range`).  The enhanced
analysis passed by `main` is embedded opaquely (a type parameter), since the
function only stores it. -/

structure SummaryIn where
  totalEntries : Option Nat
  requests : Option (List Request)

structure PageTimings where
  onContentLoad : Option ℚ
  onLoad : Option ℚ

structure PageIn where
  pageTimings : Option PageTimings
  title : String

structure LogIn where
  pages : List PageIn

structure HeaderIn where
  log : Option LogIn

/-- Models the Python strings `f"{x}s"` versus `"Not available"` without
reproducing decimal formatting. -/
inductive TimeStr where
  | avail (seconds : ℚ)
  | notAvail
deriving DecidableEq, Repr

structure PerformanceSummary where
  total_requests : Nat
  dom_ready_time : TimeStr
  page_load_time : TimeStr
  performance_grade : String
deriving Repr

structure CriticalIssues where
  very_slow_requests : Nat
  slow_requests : Nat
  failed_requests : Nat
  excessive_requests : Bool
deriving Repr

structure AssetEntry where
  url : String
  size_kb : ℚ
deriving Repr

structure SlowEntry where
  url : String
  time_ms : ℤ
deriving Repr

structure FailedEntry where
  url : String
  status : Int
deriving Repr

structure BaseSummary (ε : Type) where
  performance_summary : PerformanceSummary
  critical_issues : CriticalIssues
  resource_breakdown : List (String × Nat)
  largest_assets : List AssetEntry
  slowest_requests : List SlowEntry
  failed_requests : List FailedEntry
  enhanced : Option ε

/-- The returned dict: either the full summary or the error-only dict. -/
inductive AgentSummaryResult (ε : Type) where
  | ok (s : BaseSummary ε)
  | error (msg : String)

/-- The `defaultdict` grouping of lines 858-860 reduced to the per-type
counts of lines 892-894, in first-occurrence key order (Python dict
insertion order). -/
def bumpCount (acc : List (String × Nat)) (k : String) : List (String × Nat) :=
  if acc.any (fun p => p.1 = k) then
    acc.map (fun p => if p.1 = k then (p.1, p.2 + 1) else p)
  else acc ++ [(k, 1)]

def resourceBreakdown (reqs : List Request) : List (String × Nat) :=
  reqs.foldl (fun acc r => bumpCount acc r.resourceType) []

/-- Python `url[:80]`. -/
def urlTake80 (s : String) : String :=
  ⟨s.data.take 80⟩

/-- Python `round(x)` with no digits argument: nearest integer, ties to
even. -/
def pyRoundInt (x : ℚ) : ℤ :=
  halfEven x

/-- The try-protected body of `generate_agent_summary` (lines 836-923); the
error strings are `str(e)` of the exceptions the key accesses raise. -/
def generateAgentSummaryE {ε : Type} (summary : SummaryIn) (header : HeaderIn)
    (enhanced : Option ε) : Except String (BaseSummary ε) := do
  let reqs ← match summary.requests with
    | some rs => Except.ok rs
    | none => Except.error "'requests'"
  let lg ← match header.log with
    | some lg => Except.ok lg
    | none => Except.error "'log'"
  let page ← match lg.pages with
    | [] => Except.error "list index out of range"
    | p :: _ => Except.ok p
  let totalEntries := summary.totalEntries.getD 0
  let onContentLoad := page.pageTimings.bind (fun pt => pt.onContentLoad)
  let onLoad := page.pageTimings.bind (fun pt => pt.onLoad)
  let domReady := onContentLoad.map (fun v => pyRound (v / 1000) 2)
  let pageLoad := pageLoadSeconds onLoad
  let failed := reqs.filter (fun r => 400 ≤ r.status)
  let largest :=
    ((reqs.filter (fun r => 0 < r.size)).mergeSort
      (fun a b => decide (b.size ≤ a.size))).take 5
  let slowest := (reqs.mergeSort (fun a b => decide (b.time ≤ a.time))).take 5
  Except.ok
    { performance_summary :=
        { total_requests := totalEntries
          dom_ready_time := match domReady with
            | some q => TimeStr.avail q
            | none => TimeStr.notAvail
          page_load_time := match pageLoad with
            | some q => TimeStr.avail q
            | none => TimeStr.notAvail
          performance_grade := performance_grade pageLoad }
      critical_issues :=
        { very_slow_requests := (verySlowRequests reqs).length
          slow_requests := (slowRequestsAgent reqs).length
          failed_requests := failed.length
          excessive_requests := decide (100 < totalEntries) }
      resource_breakdown := resourceBreakdown reqs
      largest_assets := largest.map
        (fun r => { url := urlTake80 r.url, size_kb := pyRound ((r.size : ℚ) / 1024) 1 })
      slowest_requests := slowest.map
        (fun r => { url := urlTake80 r.url, time_ms := pyRoundInt r.time })
      failed_requests := failed.map (fun r => { url := r.url, status := r.status })
      enhanced := enhanced }

/-- `generate_agent_summary`: the `except` wrapper of lines 925-926. -/
def generate_agent_summary {ε : Type} (summary : SummaryIn) (header : HeaderIn)
    (enhanced : Option ε) : AgentSummaryResult ε :=
  match generateAgentSummaryE summary header enhanced with
  | Except.ok b => AgentSummaryResult.ok b
  | Except.error e => AgentSummaryResult.error ("Failed to generate summary: " ++ e)

/-- C9: `generate_agent_summary` is total: every input yields either the full
summary or the error-only dict; when the summary lacks the "requests" key, or
"requests" is present but `log.pages` is empty, the result is exactly the
error-only dict (which `main`, lines 497-502, then writes to
`agent_summary.json` unconditionally, so a successfully written artifact can
consist of the error key alone). -/
theorem c9_summary_error_conversion {ε : Type} (summary : SummaryIn)
    (header : HeaderIn) (enhanced : Option ε) :
    ((∃ b, generate_agent_summary summary header enhanced =
        AgentSummaryResult.ok b) ∨
     (∃ m, generate_agent_summary summary header enhanced =
        AgentSummaryResult.error m)) ∧
    (summary.requests = none →
      generate_agent_summary summary header enhanced =
        AgentSummaryResult.error "Failed to generate summary: 'requests'") ∧
    (∀ rs lg, summary.requests = some rs → header.log = some lg →
      lg.pages = [] →
      generate_agent_summary summary header enhanced =
        AgentSummaryResult.error
          "Failed to generate summary: list index out of range") := by
  refine ⟨?_, ?_, ?_⟩
  · cases h : generateAgentSummaryE summary header enhanced with
    | ok b =>
        left
        exact ⟨b, by rw [generate_agent_summary, h]⟩
    | error e =>
        right
        exact ⟨_, by rw [generate_agent_summary, h]⟩
  · intro hreq
    rw [generate_agent_summary, generateAgentSummaryE, hreq]
    rfl
  · intro rs lg hreq hlog hpages
    cases lg with
    | mk pages =>
        have hp : pages = [] := hpages
        subst hp
        rw [generate_agent_summary, generateAgentSummaryE, hreq, hlog]
        rfl

/-- A summary dict missing the "requests" key. -/
def summaryNoRequests : SummaryIn :=
  { totalEntries := some 3, requests := none }

/-- A well-formed summary dict with one request. -/
def summaryOneRequest : SummaryIn :=
  { totalEntries := some 1, requests := some [baseRequest] }

/-- A header whose `log.pages` list is empty. -/
def headerNoPages : HeaderIn :=
  { log := some { pages := [] } }

/-- Witness for C9: both named failure inputs produce the error-only
dict. -/
theorem c9_summary_error_conversion_witness :
    @generate_agent_summary Unit summaryNoRequests headerNoPages none =
      AgentSummaryResult.error "Failed to generate summary: 'requests'" ∧
    @generate_agent_summary Unit summaryOneRequest headerNoPages none =
      AgentSummaryResult.error
        "Failed to generate summary: list index out of range" := by
  constructor
  · exact (c9_summary_error_conversion summaryNoRequests headerNoPages
      (none : Option Unit)).2.1 rfl
  · exact (c9_summary_error_conversion summaryOneRequest headerNoPages
      (none : Option Unit)).2.2 [baseRequest] { pages := [] } rfl rfl rfl

/-! ### C3 - structural parser versus regex fallback

`parse_with_beautifulsoup` (lines 672-706) and `parse_with_regex`
(lines 709-744).  A well-formed head section is embedded as its `<link>` and
`<script>` tags, each reduced to the ordered attribute list the tokenizer
produces (attribute names already lowercased by the HTML parser; names and
values free of quote, angle-bracket and backslash characters, so each tag
serializes as `<name attr="value" ...>` and a regex match never crosses a
tag boundary: the patterns consist of literals and `[^>]*` segments, none of
which can contain the closing `>`).  Within this frame, translated from the
source:
* the BeautifulSoup path reads attributes by name (`tag.get`, first
  occurrence, `None` when absent) and applies Python truthiness, so an
  empty-valued `async`/`defer` does not exclude a script and an empty
  `href`/`src` is skipped; `find_all(rel=stylesheet)` matches the
  multi-valued rel attribute when any whitespace-separated token equals
  stylesheet;
* the regex patterns are matched with `re.IGNORECASE` over the serialized
  tag text, so `rel=["]`, `href=["]` and `src=["]` occurrences align with
  attributes whose lowercased name has `rel` / `href` / `src` as a suffix
  (for example `data-href`), the rel value comparison is on the lowercased
  value, and the greedy `[^>]*` segments backtrack to the rightmost feasible
  occurrences (modelled by `getLast?` and a rightmost-rel recursion); the
  captures `([^"]+)` demand a nonempty quote-free value;
* the `\basync\b` / `\bdefer\b` search runs over the whole matched tag
  text, hence sees those words inside any attribute name or value (word
  characters cannot span the `="`, `"` and space separators, and the literal
  `<script` contains neither word).
Both paths emit all stylesheet resources first and then all blocking
scripts, in document order, and `correlate_with_request` (lines 747-775)
never returns a falsy value, so every extracted URL contributes exactly one
resource. -/

/-- The dict comprehension `{req['url']: req for req in reqs}` (line 660):
keys in first-insertion order, later duplicates overwrite the value. -/
def insertUrlMap (d : List (String × Request)) (r : Request) :
    List (String × Request) :=
  if d.any (fun p => p.1 = r.url) then
    d.map (fun p => if p.1 = r.url then (p.1, r) else p)
  else d ++ [(r.url, r)]

def urlToRequest (reqs : List Request) : List (String × Request) :=
  reqs.foldl insertUrlMap []

end HarAnalyzer
